import Mathlib

/-!
Shallow embedding of `src/profiling/timemory-connector/kp_timemory.cpp`
(the Kokkos timemory connector).

The connector keeps three pieces of thread-local state:
a monotone counter (`get_unique_id`), a map from 64-bit handles to
`profile_entry_t` bundles (`get_profile_map`), a map for sections
(`get_section_map`, declared but never used by any operation), and a
stack of bundles (`get_profile_stack`).  We model the state of one
thread explicitly and every `kokkosp_*` callback as a state
transformer.  Calls into the external metric bundle (`.start()`,
`.stop()` on a `profile_entry_t`) are recorded as an event trace,
since the bundle internals are outside this component.

Machine integers are modelled as `Nat` carrying the machine value;
the only places the source converts widths are the thread-local
counter increment (`uint64_t` wrap) and the assignment
`*secid = get_unique_id()` (truncation `uint64_t → uint32_t`), which
are modelled with explicit `% 2^64` / `% 2^32`.

The compiled-in metric count `profile_entry_t::size()` is a template
parameter of the build; it is modelled as an explicit argument `nm`
to each callback, and `if_constexpr(profile_entry_t::size() > 0)`
becomes `if 0 < nm then ... else ...`.
-/

/-- `profile_entry_t(pname, store)`: an external metric bundle, known to the
core only by the name it was constructed with and the `store` flag.  The
source always constructs it as `profile_entry_t(pname, true)`. -/
structure ProfileEntry where
  pname : String
  store : Bool
deriving DecidableEq

/-- A call made into an external metric bundle, labelled by the bundle's
construction name.  `start p` is `bundle.start()` on the bundle named `p`;
`stop p` is `bundle.stop()`. -/
inductive BundleEvent where
  | start (pname : String)
  | stop (pname : String)
deriving DecidableEq

/-- `section_entry_t = std::tuple<std::string, profile_entry_t>`. -/
def SectionEntry := String × ProfileEntry

instance : DecidableEq SectionEntry := by
  unfold SectionEntry
  infer_instance

/-- The thread-local state of the connector:
`get_unique_id`'s counter, `get_profile_map()` (an
`unordered_map<uint64_t, profile_entry_t>`, modelled as an association
list), `get_section_map()` (an `unordered_map<uint64_t, section_entry_t>`,
declared in the source but never touched by any function), and
`get_profile_stack()` (a `vector<profile_entry_t>`, most recent element
first, i.e. `push_back`/`back`/`pop_back` act on the head). -/
structure KokkosState where
  uniqueId : Nat
  profileMap : List (Nat × ProfileEntry)
  sectionMap : List (Nat × SectionEntry)
  profileStack : List ProfileEntry
deriving DecidableEq

/-- The state of a fresh thread: every thread-local object is
default-constructed (counter `0`, empty maps, empty stack). -/
def initKokkosState : KokkosState := ⟨0, [], [], []⟩

/-- `unordered_map::find`: the value stored under key `k`, if any. -/
def mapFind : List (Nat × ProfileEntry) → Nat → Option ProfileEntry
  | [], _ => none
  | p :: rest, k => if p.1 = k then some p.2 else mapFind rest k

/-- `unordered_map::insert(make_pair(k, v))`: inserts only when `k` is not
already present (`insert` never overwrites). -/
def mapInsert (m : List (Nat × ProfileEntry)) (k : Nat) (v : ProfileEntry) :
    List (Nat × ProfileEntry) :=
  match mapFind m k with
  | some _ => m
  | none => (k, v) :: m

/-- `unordered_map::erase(k)`: removes the entry stored under `k`. -/
def mapErase : List (Nat × ProfileEntry) → Nat → List (Nat × ProfileEntry)
  | [], _ => []
  | p :: rest, k => if p.1 = k then mapErase rest k else p :: mapErase rest k

/-- `get_unique_id()`: returns the thread-local `uint64_t` counter and
post-increments it (wrapping at `2^64`). -/
def get_unique_id (s : KokkosState) : Nat × KokkosState :=
  (s.uniqueId, { s with uniqueId := (s.uniqueId + 1) % 2 ^ 64 })

/-- `create_profiler(pname, kernid)`: inserts
`profile_entry_t(pname, true)` under `kernid` in the profile map. -/
def create_profiler (pname : String) (kernid : Nat) (s : KokkosState) :
    KokkosState :=
  { s with profileMap := mapInsert s.profileMap kernid ⟨pname, true⟩ }

/-- `destroy_profiler(kernid)`: erases `kernid` from the profile map when
present, otherwise does nothing. -/
def destroy_profiler (kernid : Nat) (s : KokkosState) : KokkosState :=
  match mapFind s.profileMap kernid with
  | some _ => { s with profileMap := mapErase s.profileMap kernid }
  | none => s

/-- `start_profiler(kernid)`: when `kernid` is present, calls `.start()` on
the bundle stored under it (recorded as a `BundleEvent.start`); the map
itself is unchanged.  No-op when absent. -/
def start_profiler (kernid : Nat) (s : KokkosState) :
    KokkosState × List BundleEvent :=
  match mapFind s.profileMap kernid with
  | some e => (s, [BundleEvent.start e.pname])
  | none => (s, [])

/-- `stop_profiler(kernid)`: when `kernid` is present, calls `.stop()` on
the bundle stored under it; no-op when absent. -/
def stop_profiler (kernid : Nat) (s : KokkosState) :
    KokkosState × List BundleEvent :=
  match mapFind s.profileMap kernid with
  | some e => (s, [BundleEvent.stop e.pname])
  | none => (s, [])

/-- How a C++ `std::ostream` renders a data pointer: `0x` followed by the
address in lowercase hexadecimal.  Used because
`kokkosp_create_profile_section` passes the pointer `secid` (not `*secid`)
to `TIMEMORY_JOIN`. -/
def ptrRender (addr : Nat) : String :=
  "0x" ++ (Nat.toDigits 16 addr).asString

/-- `kokkosp_begin_parallel_for(name, devid, kernid)`.  `kernid` is an
out-parameter; the returned `Nat` is the value it holds afterwards (its
prior contents `kernid_in` when the guarded block is compiled out).
Builds `TIMEMORY_JOIN("/", "kokkos", TIMEMORY_JOIN("", "dev", devid), name)`,
allocates a fresh id, creates and starts a profiler under it. -/
def kokkosp_begin_parallel_for (nm : Nat) (name : String) (devid : Nat)
    (kernid_in : Nat) (s : KokkosState) :
    KokkosState × Nat × List BundleEvent :=
  if 0 < nm then
    let pname := "kokkos" ++ "/" ++ ("dev" ++ toString devid) ++ "/" ++ name
    let r := get_unique_id s
    let s1 := create_profiler pname r.1 r.2
    let r2 := start_profiler r.1 s1
    (r2.1, r.1, r2.2)
  else (s, kernid_in, [])

/-- `kokkosp_end_parallel_for(kernid)`: stops then destroys the profiler
under `kernid`. -/
def kokkosp_end_parallel_for (nm : Nat) (kernid : Nat) (s : KokkosState) :
    KokkosState × List BundleEvent :=
  if 0 < nm then
    let r := stop_profiler kernid s
    (destroy_profiler kernid r.1, r.2)
  else (s, [])

/-- `kokkosp_begin_parallel_reduce`: textually identical body to
`kokkosp_begin_parallel_for`. -/
def kokkosp_begin_parallel_reduce (nm : Nat) (name : String) (devid : Nat)
    (kernid_in : Nat) (s : KokkosState) :
    KokkosState × Nat × List BundleEvent :=
  if 0 < nm then
    let pname := "kokkos" ++ "/" ++ ("dev" ++ toString devid) ++ "/" ++ name
    let r := get_unique_id s
    let s1 := create_profiler pname r.1 r.2
    let r2 := start_profiler r.1 s1
    (r2.1, r.1, r2.2)
  else (s, kernid_in, [])

/-- `kokkosp_end_parallel_reduce`: identical body to
`kokkosp_end_parallel_for`. -/
def kokkosp_end_parallel_reduce (nm : Nat) (kernid : Nat) (s : KokkosState) :
    KokkosState × List BundleEvent :=
  if 0 < nm then
    let r := stop_profiler kernid s
    (destroy_profiler kernid r.1, r.2)
  else (s, [])

/-- `kokkosp_begin_parallel_scan`: textually identical body to
`kokkosp_begin_parallel_for`. -/
def kokkosp_begin_parallel_scan (nm : Nat) (name : String) (devid : Nat)
    (kernid_in : Nat) (s : KokkosState) :
    KokkosState × Nat × List BundleEvent :=
  if 0 < nm then
    let pname := "kokkos" ++ "/" ++ ("dev" ++ toString devid) ++ "/" ++ name
    let r := get_unique_id s
    let s1 := create_profiler pname r.1 r.2
    let r2 := start_profiler r.1 s1
    (r2.1, r.1, r2.2)
  else (s, kernid_in, [])

/-- `kokkosp_end_parallel_scan`: identical body to
`kokkosp_end_parallel_for`. -/
def kokkosp_end_parallel_scan (nm : Nat) (kernid : Nat) (s : KokkosState) :
    KokkosState × List BundleEvent :=
  if 0 < nm then
    let r := stop_profiler kernid s
    (destroy_profiler kernid r.1, r.2)
  else (s, [])

/-- `kokkosp_push_profile_region(name)`: `push_back(profile_entry_t(name,
true))` then `back().start()`.  The stack head is the back of the vector. -/
def kokkosp_push_profile_region (nm : Nat) (name : String) (s : KokkosState) :
    KokkosState × List BundleEvent :=
  if 0 < nm then
    ({ s with profileStack := ⟨name, true⟩ :: s.profileStack },
     [BundleEvent.start name])
  else (s, [])

/-- `kokkosp_pop_profile_region()`: returns at once on an empty stack;
otherwise `back().stop()` then `pop_back()`. -/
def kokkosp_pop_profile_region (nm : Nat) (s : KokkosState) :
    KokkosState × List BundleEvent :=
  if 0 < nm then
    match s.profileStack with
    | [] => (s, [])
    | e :: rest => ({ s with profileStack := rest }, [BundleEvent.stop e.pname])
  else (s, [])

/-- `kokkosp_create_profile_section(name, secid)`.  `secid` is a
`uint32_t*` out-parameter living at address `addr`; the returned `Nat` is
the value it holds afterwards.  `*secid = get_unique_id()` truncates the
64-bit id to 32 bits; the qualified name is built as
`TIMEMORY_JOIN("/", "kokkos", TIMEMORY_JOIN("", "section", secid), name)` —
note the source streams the pointer `secid` itself, so the name embeds the
address of the out-parameter, not the id. -/
def kokkosp_create_profile_section (nm : Nat) (name : String) (addr : Nat)
    (secid_in : Nat) (s : KokkosState) :
    KokkosState × Nat × List BundleEvent :=
  if 0 < nm then
    let r := get_unique_id s
    let sid := r.1 % 2 ^ 32
    let pname := "kokkos" ++ "/" ++ ("section" ++ ptrRender addr) ++ "/" ++ name
    (create_profiler pname sid r.2, sid, [])
  else (s, secid_in, [])

/-- `kokkosp_destroy_profile_section(secid)`: `destroy_profiler(secid)`. -/
def kokkosp_destroy_profile_section (nm : Nat) (secid : Nat)
    (s : KokkosState) : KokkosState × List BundleEvent :=
  if 0 < nm then (destroy_profiler secid s, []) else (s, [])

/-- `kokkosp_start_profile_section(secid)`: `start_profiler(secid)`. -/
def kokkosp_start_profile_section (nm : Nat) (secid : Nat)
    (s : KokkosState) : KokkosState × List BundleEvent :=
  if 0 < nm then start_profiler secid s else (s, [])

/-- `kokkosp_stop_profile_section(secid)`: the source body is
`start_profiler(secid)` — it calls start, not stop. -/
def kokkosp_stop_profile_section (nm : Nat) (secid : Nat)
    (s : KokkosState) : KokkosState × List BundleEvent :=
  if 0 < nm then start_profiler secid s else (s, [])

/-- `kokkosp_finalize_library()`: `.stop()` on every entry still in the
profile map, then clears that map.  The section map and the profile stack
are not touched (the external `tim::timemory_finalize()` call is outside
this component). -/
def kokkosp_finalize_library (s : KokkosState) :
    KokkosState × List BundleEvent :=
  ({ s with profileMap := [] },
   s.profileMap.map fun p => BundleEvent.stop p.2.pname)

/-- One Event Router callback, with its arguments.  `createSection` carries
the address of its `uint32_t*` out-parameter, since the source streams that
pointer into the qualified name. -/
inductive KokkosOp where
  | beginFor (name : String) (devid : Nat)
  | endFor (kernid : Nat)
  | beginReduce (name : String) (devid : Nat)
  | endReduce (kernid : Nat)
  | beginScan (name : String) (devid : Nat)
  | endScan (kernid : Nat)
  | pushRegion (name : String)
  | popRegion
  | createSection (name : String) (addr : Nat)
  | destroySection (secid : Nat)
  | startSection (secid : Nat)
  | stopSection (secid : Nat)
deriving DecidableEq

/-- Dispatch one callback against the thread state, keeping the state and
the bundle events it caused (out-parameter values are dropped; their prior
contents do not influence the state). -/
def stepOp (nm : Nat) (op : KokkosOp) (s : KokkosState) :
    KokkosState × List BundleEvent :=
  match op with
  | .beginFor n d => let r := kokkosp_begin_parallel_for nm n d 0 s
                     (r.1, r.2.2)
  | .endFor k => kokkosp_end_parallel_for nm k s
  | .beginReduce n d => let r := kokkosp_begin_parallel_reduce nm n d 0 s
                        (r.1, r.2.2)
  | .endReduce k => kokkosp_end_parallel_reduce nm k s
  | .beginScan n d => let r := kokkosp_begin_parallel_scan nm n d 0 s
                      (r.1, r.2.2)
  | .endScan k => kokkosp_end_parallel_scan nm k s
  | .pushRegion n => kokkosp_push_profile_region nm n s
  | .popRegion => kokkosp_pop_profile_region nm s
  | .createSection n a => let r := kokkosp_create_profile_section nm n a 0 s
                          (r.1, r.2.2)
  | .destroySection k => kokkosp_destroy_profile_section nm k s
  | .startSection k => kokkosp_start_profile_section nm k s
  | .stopSection k => kokkosp_stop_profile_section nm k s

/-- Run a sequence of callbacks on one thread, accumulating the trace of
bundle events. -/
def runOps (nm : Nat) : List KokkosOp → KokkosState → KokkosState × List BundleEvent
  | [], s => (s, [])
  | op :: l, s =>
    let r := stepOp nm op s
    let r2 := runOps nm l r.1
    (r2.1, r.2 ++ r2.2)

/-- A push/pop-only call: the alphabet of the stack-discipline claim. -/
inductive StackOp where
  | push (name : String)
  | pop
deriving DecidableEq

/-- Run a sequence of push/pop callbacks (state only). -/
def runStack (nm : Nat) : List StackOp → KokkosState → KokkosState
  | [], s => s
  | .push n :: l, s => runStack nm l (kokkosp_push_profile_region nm n s).1
  | .pop :: l, s => runStack nm l (kokkosp_pop_profile_region nm s).1

/-- Number of pushes in a push/pop sequence. -/
def numPushes : List StackOp → Nat
  | [] => 0
  | .push _ :: l => numPushes l + 1
  | .pop :: l => numPushes l

/-- Number of pops in a push/pop sequence. -/
def numPops : List StackOp → Nat
  | [] => 0
  | .push _ :: l => numPops l
  | .pop :: l => numPops l + 1

/-- `noPopOnEmpty d l`: running `l` from stack depth `d`, no pop is ever
issued while the stack is empty (equivalently, every prefix of `l` has at
most `d` more pops than pushes). -/
def noPopOnEmpty : Nat → List StackOp → Bool
  | _, [] => true
  | d, .push _ :: l => noPopOnEmpty (d + 1) l
  | d, .pop :: l => decide (0 < d) && noPopOnEmpty (d - 1) l

lemma mapFind_cons_self (k : Nat) (v : ProfileEntry)
    (m : List (Nat × ProfileEntry)) : mapFind ((k, v) :: m) k = some v := by
  simp [mapFind]

lemma mapErase_of_find_none (m : List (Nat × ProfileEntry)) (k : Nat)
    (h : mapFind m k = none) : mapErase m k = m := by
  induction m with
  | nil => rfl
  | cons p rest ih =>
    by_cases hp : p.1 = k
    · simp [mapFind, hp] at h
    · simp [mapFind, hp] at h
      simp [mapErase, hp, ih h]

lemma start_profiler_state (k : Nat) (s : KokkosState) :
    (start_profiler k s).1 = s := by
  unfold start_profiler
  cases mapFind s.profileMap k <;> rfl

lemma stop_profiler_state (k : Nat) (s : KokkosState) :
    (stop_profiler k s).1 = s := by
  unfold stop_profiler
  cases mapFind s.profileMap k <;> rfl

lemma destroy_profiler_sectionMap (k : Nat) (s : KokkosState) :
    (destroy_profiler k s).sectionMap = s.sectionMap := by
  unfold destroy_profiler
  cases mapFind s.profileMap k <;> rfl

/-- With a positive metric count and a fresh counter value,
`kokkosp_begin_parallel_for` inserts a started bundle named
`kokkos/dev<devid>/<name>` under the allocated handle. -/
lemma begin_parallel_for_eq (nm : Nat) (name : String) (devid kin : Nat)
    (s : KokkosState) (hnm : 0 < nm)
    (hfresh : mapFind s.profileMap s.uniqueId = none) :
    kokkosp_begin_parallel_for nm name devid kin s
      = ({ s with uniqueId := (s.uniqueId + 1) % 2 ^ 64,
                  profileMap :=
                    (s.uniqueId,
                     ⟨"kokkos" ++ "/" ++ ("dev" ++ toString devid) ++ "/" ++ name,
                      true⟩) :: s.profileMap },
         s.uniqueId,
         [BundleEvent.start
            ("kokkos" ++ "/" ++ ("dev" ++ toString devid) ++ "/" ++ name)]) := by
  unfold kokkosp_begin_parallel_for
  rw [if_pos hnm]
  simp [get_unique_id, create_profiler, mapInsert, hfresh, start_profiler,
        mapFind_cons_self]

/-- Identical statement for `kokkosp_begin_parallel_reduce`. -/
lemma begin_parallel_reduce_eq (nm : Nat) (name : String) (devid kin : Nat)
    (s : KokkosState) (hnm : 0 < nm)
    (hfresh : mapFind s.profileMap s.uniqueId = none) :
    kokkosp_begin_parallel_reduce nm name devid kin s
      = ({ s with uniqueId := (s.uniqueId + 1) % 2 ^ 64,
                  profileMap :=
                    (s.uniqueId,
                     ⟨"kokkos" ++ "/" ++ ("dev" ++ toString devid) ++ "/" ++ name,
                      true⟩) :: s.profileMap },
         s.uniqueId,
         [BundleEvent.start
            ("kokkos" ++ "/" ++ ("dev" ++ toString devid) ++ "/" ++ name)]) := by
  unfold kokkosp_begin_parallel_reduce
  rw [if_pos hnm]
  simp [get_unique_id, create_profiler, mapInsert, hfresh, start_profiler,
        mapFind_cons_self]

/-- Identical statement for `kokkosp_begin_parallel_scan`. -/
lemma begin_parallel_scan_eq (nm : Nat) (name : String) (devid kin : Nat)
    (s : KokkosState) (hnm : 0 < nm)
    (hfresh : mapFind s.profileMap s.uniqueId = none) :
    kokkosp_begin_parallel_scan nm name devid kin s
      = ({ s with uniqueId := (s.uniqueId + 1) % 2 ^ 64,
                  profileMap :=
                    (s.uniqueId,
                     ⟨"kokkos" ++ "/" ++ ("dev" ++ toString devid) ++ "/" ++ name,
                      true⟩) :: s.profileMap },
         s.uniqueId,
         [BundleEvent.start
            ("kokkos" ++ "/" ++ ("dev" ++ toString devid) ++ "/" ++ name)]) := by
  unfold kokkosp_begin_parallel_scan
  rw [if_pos hnm]
  simp [get_unique_id, create_profiler, mapInsert, hfresh, start_profiler,
        mapFind_cons_self]

/-- Ending a region whose handle maps to the bundle `e` stops that bundle
and erases the handle. -/
lemma end_parallel_present (nm k : Nat) (s : KokkosState) (e : ProfileEntry)
    (hnm : 0 < nm) (hk : mapFind s.profileMap k = some e) :
    kokkosp_end_parallel_for nm k s
      = ({ s with profileMap := mapErase s.profileMap k },
         [BundleEvent.stop e.pname])
    ∧ kokkosp_end_parallel_reduce nm k s
      = ({ s with profileMap := mapErase s.profileMap k },
         [BundleEvent.stop e.pname])
    ∧ kokkosp_end_parallel_scan nm k s
      = ({ s with profileMap := mapErase s.profileMap k },
         [BundleEvent.stop e.pname]) := by
  unfold kokkosp_end_parallel_for kokkosp_end_parallel_reduce
    kokkosp_end_parallel_scan
  rw [if_pos hnm]
  simp [stop_profiler, destroy_profiler, hk]

lemma pop_region_sectionMap (nm : Nat) (s : KokkosState) :
    (kokkosp_pop_profile_region nm s).1.sectionMap = s.sectionMap := by
  unfold kokkosp_pop_profile_region
  rcases Nat.eq_zero_or_pos nm with h0 | h0
  · subst h0; simp
  · rw [if_pos h0]
    cases hstk : s.profileStack <;> simp

lemma stepOp_sectionMap (nm : Nat) (op : KokkosOp) (s : KokkosState) :
    (stepOp nm op s).1.sectionMap = s.sectionMap := by
  cases op <;>
    rcases Nat.eq_zero_or_pos nm with h0 | h0 <;>
    simp [stepOp, kokkosp_begin_parallel_for, kokkosp_end_parallel_for,
          kokkosp_begin_parallel_reduce, kokkosp_end_parallel_reduce,
          kokkosp_begin_parallel_scan, kokkosp_end_parallel_scan,
          kokkosp_push_profile_region, pop_region_sectionMap,
          kokkosp_create_profile_section, kokkosp_destroy_profile_section,
          kokkosp_start_profile_section, kokkosp_stop_profile_section,
          h0, get_unique_id, create_profiler,
          start_profiler_state, stop_profiler_state, destroy_profiler_sectionMap]

lemma runOps_sectionMap (nm : Nat) (ops : List KokkosOp) :
    ∀ s : KokkosState, (runOps nm ops s).1.sectionMap = s.sectionMap := by
  induction ops with
  | nil => intro s; rfl
  | cons op l ih =>
    intro s
    simp only [runOps]
    rw [ih, stepOp_sectionMap]

lemma stepOp_zero (op : KokkosOp) (s : KokkosState) : stepOp 0 op s = (s, []) := by
  cases op <;>
    simp [stepOp, kokkosp_begin_parallel_for, kokkosp_end_parallel_for,
          kokkosp_begin_parallel_reduce, kokkosp_end_parallel_reduce,
          kokkosp_begin_parallel_scan, kokkosp_end_parallel_scan,
          kokkosp_push_profile_region, kokkosp_pop_profile_region,
          kokkosp_create_profile_section, kokkosp_destroy_profile_section,
          kokkosp_start_profile_section, kokkosp_stop_profile_section]

lemma runOps_zero (ops : List KokkosOp) : ∀ s : KokkosState,
    runOps 0 ops s = (s, []) := by
  induction ops with
  | nil => intro s; rfl
  | cons op l ih =>
    intro s
    simp [runOps, stepOp_zero, ih]

/-- Claim C1: the claim says `kokkosp_stop_profile_section` invokes the
stop of the bundle registered under the id and never its start; evaluating
the embedded source on a freshly created section shows it instead invokes
the bundle's start (`start_profiler` is called in the body). -/
theorem c1_stop_section_calls_start :
    (let r := kokkosp_create_profile_section 1 "phase1" 140728898420276 0
                initKokkosState
     kokkosp_stop_profile_section 1 r.2.1 r.1
       = (r.1,
          [BundleEvent.start
             ("kokkos" ++ "/" ++ ("section" ++ ptrRender 140728898420276)
               ++ "/" ++ "phase1")])) := by
  decide

/-- Claim C2: the claim says `create_section("phase1")` registers the
qualified name `kokkos/section<id>/phase1` with the decimal id; evaluating
the embedded source (out-parameter at address `140728898420276`, thread
counter `0`, so the returned id is `0`) registers
`kokkos/section0x7ffdfffffe34/phase1` — the pointer, not the id, is
rendered — which differs from `kokkos/section0/phase1`. -/
theorem c2_create_section_name_embeds_pointer :
    (let r := kokkosp_create_profile_section 1 "phase1" 140728898420276 0
                initKokkosState
     r.2.1 = 0
     ∧ mapFind r.1.profileMap 0
         = some ⟨"kokkos/section0x7ffdfffffe34/phase1", true⟩
     ∧ "kokkos/section0x7ffdfffffe34/phase1" ≠ "kokkos/section0/phase1") := by
  decide

/-- Claim C3 (counterexample): creating a section from the initial state
puts the session into the 64-bit-keyed kernel profile map and leaves the
section map empty, contradicting the claim that section sessions go into
the distinct section map and never into the kernel map. -/
theorem c3_section_in_kernel_map_counterexample :
    (let r := kokkosp_create_profile_section 1 "phase1" 140728898420276 0
                initKokkosState
     r.1.sectionMap = [] ∧ r.1.profileMap ≠ []) := by
  decide

/-- Claim C3 (amended): section sessions are stored in the same
64-bit-keyed profile map as kernel sessions; the declared section map is
never written by any operation sequence. -/
theorem c3_sections_stored_in_profile_map (nm : Nat) (ops : List KokkosOp)
    (name : String) (addr kin : Nat) (s t : KokkosState) (hnm : 0 < nm) :
    (runOps nm ops t).1.sectionMap = t.sectionMap
    ∧ (kokkosp_create_profile_section nm name addr kin s).1.profileMap
        = mapInsert s.profileMap (s.uniqueId % 2 ^ 32)
            ⟨"kokkos" ++ "/" ++ ("section" ++ ptrRender addr) ++ "/" ++ name,
             true⟩
    ∧ (kokkosp_create_profile_section nm name addr kin s).1.sectionMap
        = s.sectionMap := by
  refine ⟨runOps_sectionMap nm ops t, ?_, ?_⟩ <;>
    simp [kokkosp_create_profile_section, hnm, get_unique_id, create_profiler]

/-- Witness for `c3_sections_stored_in_profile_map` at `nm = 1`,
`ops = [createSection "phase1" 42]`, `addr = 42`, the initial state. -/
theorem c3_sections_stored_in_profile_map_witness :
    0 < 1
    ∧ ((runOps 1 [KokkosOp.createSection "phase1" 42] initKokkosState).1.sectionMap
         = initKokkosState.sectionMap
       ∧ (kokkosp_create_profile_section 1 "phase1" 42 0 initKokkosState).1.profileMap
           = mapInsert initKokkosState.profileMap (initKokkosState.uniqueId % 2 ^ 32)
               ⟨"kokkos" ++ "/" ++ ("section" ++ ptrRender 42) ++ "/" ++ "phase1",
                true⟩
       ∧ (kokkosp_create_profile_section 1 "phase1" 42 0 initKokkosState).1.sectionMap
           = initKokkosState.sectionMap) :=
  ⟨by decide,
   c3_sections_stored_in_profile_map 1 [KokkosOp.createSection "phase1" 42]
     "phase1" 42 0 initKokkosState initKokkosState (by decide)⟩

/-- Claim C4: with an empty compiled-in metric set
(`profile_entry_t::size() = 0`), every Event Router callback is a complete
no-op: any sequence of calls leaves the state unchanged and produces no
bundle events, and from the initial state both maps and the stack stay
empty. -/
theorem c4_zero_metric_total_noop (ops : List KokkosOp) (s : KokkosState) :
    runOps 0 ops s = (s, [])
    ∧ (runOps 0 ops initKokkosState).1.profileMap = []
    ∧ (runOps 0 ops initKokkosState).1.sectionMap = []
    ∧ (runOps 0 ops initKokkosState).1.profileStack = [] := by
  refine ⟨runOps_zero ops s, ?_, ?_, ?_⟩ <;> rw [runOps_zero] <;> rfl

/-- Claim C5: on a handle absent from the calling thread's profile map,
start-section, stop-section, destroy-section and the three end-region
callbacks leave the state unchanged and call no bundle (total functions,
so they complete without error). -/
theorem c5_absent_handle_noop (nm h : Nat) (s : KokkosState)
    (habs : mapFind s.profileMap h = none) :
    kokkosp_start_profile_section nm h s = (s, [])
    ∧ kokkosp_stop_profile_section nm h s = (s, [])
    ∧ kokkosp_destroy_profile_section nm h s = (s, [])
    ∧ kokkosp_end_parallel_for nm h s = (s, [])
    ∧ kokkosp_end_parallel_reduce nm h s = (s, [])
    ∧ kokkosp_end_parallel_scan nm h s = (s, []) := by
  rcases Nat.eq_zero_or_pos nm with h0 | h0 <;>
    simp [kokkosp_start_profile_section, kokkosp_stop_profile_section,
          kokkosp_destroy_profile_section, kokkosp_end_parallel_for,
          kokkosp_end_parallel_reduce, kokkosp_end_parallel_scan,
          start_profiler, stop_profiler, destroy_profiler, habs, h0]

/-- Witness for `c5_absent_handle_noop` at `nm = 1`, handle `5`, the
initial state (whose map is empty, so `5` is absent). -/
theorem c5_absent_handle_noop_witness :
    mapFind initKokkosState.profileMap 5 = none
    ∧ (kokkosp_start_profile_section 1 5 initKokkosState = (initKokkosState, [])
       ∧ kokkosp_stop_profile_section 1 5 initKokkosState = (initKokkosState, [])
       ∧ kokkosp_destroy_profile_section 1 5 initKokkosState = (initKokkosState, [])
       ∧ kokkosp_end_parallel_for 1 5 initKokkosState = (initKokkosState, [])
       ∧ kokkosp_end_parallel_reduce 1 5 initKokkosState = (initKokkosState, [])
       ∧ kokkosp_end_parallel_scan 1 5 initKokkosState = (initKokkosState, [])) :=
  ⟨rfl, c5_absent_handle_noop 1 5 initKokkosState rfl⟩

/-- Claim C9: with an empty compiled-in metric set, the three begin-region
callbacks leave their `kernid` out-parameter holding its prior contents
(no fresh handle is written through it). -/
theorem c9_zero_metric_kernid_untouched (name : String) (devid kin : Nat)
    (s : KokkosState) :
    (kokkosp_begin_parallel_for 0 name devid kin s).2.1 = kin
    ∧ (kokkosp_begin_parallel_reduce 0 name devid kin s).2.1 = kin
    ∧ (kokkosp_begin_parallel_scan 0 name devid kin s).2.1 = kin := by
  simp [kokkosp_begin_parallel_for, kokkosp_begin_parallel_reduce,
        kokkosp_begin_parallel_scan]

/-- Claim C10: `kokkosp_finalize_library` stops every bundle still in the
calling thread's profile map and clears that map, and touches nothing
else: the profile stack (hence every pushed-but-never-popped session), the
section map and the id counter are left exactly as they were, and the
emitted stops are exactly those of the profile-map entries. -/
theorem c10_finalize_clears_only_profile_map (s : KokkosState) :
    (kokkosp_finalize_library s).1.profileMap = []
    ∧ (kokkosp_finalize_library s).2
        = s.profileMap.map (fun p => BundleEvent.stop p.2.pname)
    ∧ (kokkosp_finalize_library s).1.profileStack = s.profileStack
    ∧ (kokkosp_finalize_library s).1.sectionMap = s.sectionMap
    ∧ (kokkosp_finalize_library s).1.uniqueId = s.uniqueId := by
  simp [kokkosp_finalize_library]

/-- Claim C6: a handle obtained from a begin-region call, when passed to
the matching end-region call with no intervening operation (so the caller
never explicitly started or stopped it), has its session stopped (exactly
one stop event, on the bundle registered under the handle) and is then
removed from the profile map; this holds for the for, reduce and scan
variants. -/
theorem c6_end_region_stops_then_destroys (nm : Nat) (name : String)
    (devid kin : Nat) (s : KokkosState) (hnm : 0 < nm)
    (hfresh : mapFind s.profileMap s.uniqueId = none) :
    (let r := kokkosp_begin_parallel_for nm name devid kin s
     let e := kokkosp_end_parallel_for nm r.2.1 r.1
     e.2 = [BundleEvent.stop
              ("kokkos" ++ "/" ++ ("dev" ++ toString devid) ++ "/" ++ name)]
     ∧ mapFind e.1.profileMap r.2.1 = none
     ∧ e.1.profileMap = s.profileMap)
    ∧ (let r := kokkosp_begin_parallel_reduce nm name devid kin s
       let e := kokkosp_end_parallel_reduce nm r.2.1 r.1
       e.2 = [BundleEvent.stop
                ("kokkos" ++ "/" ++ ("dev" ++ toString devid) ++ "/" ++ name)]
       ∧ mapFind e.1.profileMap r.2.1 = none
       ∧ e.1.profileMap = s.profileMap)
    ∧ (let r := kokkosp_begin_parallel_scan nm name devid kin s
       let e := kokkosp_end_parallel_scan nm r.2.1 r.1
       e.2 = [BundleEvent.stop
                ("kokkos" ++ "/" ++ ("dev" ++ toString devid) ++ "/" ++ name)]
       ∧ mapFind e.1.profileMap r.2.1 = none
       ∧ e.1.profileMap = s.profileMap) := by
  refine ⟨?_, ?_, ?_⟩ <;>
    simp only [begin_parallel_for_eq nm name devid kin s hnm hfresh,
               begin_parallel_reduce_eq nm name devid kin s hnm hfresh,
               begin_parallel_scan_eq nm name devid kin s hnm hfresh] <;>
    simp [kokkosp_end_parallel_for, kokkosp_end_parallel_reduce,
          kokkosp_end_parallel_scan, hnm, stop_profiler, destroy_profiler,
          mapFind, mapErase, mapErase_of_find_none s.profileMap s.uniqueId hfresh,
          hfresh]

/-- Witness for `c6_end_region_stops_then_destroys` at `nm = 1`,
`name = "k"`, `devid = 0`, the initial state. -/
theorem c6_end_region_stops_then_destroys_witness :
    0 < 1
    ∧ mapFind initKokkosState.profileMap initKokkosState.uniqueId = none
    ∧ ((let r := kokkosp_begin_parallel_for 1 "k" 0 0 initKokkosState
        let e := kokkosp_end_parallel_for 1 r.2.1 r.1
        e.2 = [BundleEvent.stop
                 ("kokkos" ++ "/" ++ ("dev" ++ toString (0 : Nat)) ++ "/" ++ "k")]
        ∧ mapFind e.1.profileMap r.2.1 = none
        ∧ e.1.profileMap = initKokkosState.profileMap)
       ∧ (let r := kokkosp_begin_parallel_reduce 1 "k" 0 0 initKokkosState
          let e := kokkosp_end_parallel_reduce 1 r.2.1 r.1
          e.2 = [BundleEvent.stop
                   ("kokkos" ++ "/" ++ ("dev" ++ toString (0 : Nat)) ++ "/" ++ "k")]
          ∧ mapFind e.1.profileMap r.2.1 = none
          ∧ e.1.profileMap = initKokkosState.profileMap)
       ∧ (let r := kokkosp_begin_parallel_scan 1 "k" 0 0 initKokkosState
          let e := kokkosp_end_parallel_scan 1 r.2.1 r.1
          e.2 = [BundleEvent.stop
                   ("kokkos" ++ "/" ++ ("dev" ++ toString (0 : Nat)) ++ "/" ++ "k")]
          ∧ mapFind e.1.profileMap r.2.1 = none
          ∧ e.1.profileMap = initKokkosState.profileMap)) :=
  ⟨by decide, rfl,
   c6_end_region_stops_then_destroys 1 "k" 0 0 initKokkosState (by decide) rfl⟩

/-- Claim C8: with a positive metric count and a fresh counter value, each
begin-region callback registers its session under the qualified name
`kokkos/dev<devid>/<name>` (the device id rendered in decimal), for the
for, reduce and scan variants. -/
theorem c8_begin_region_qualified_name (nm : Nat) (name : String)
    (devid kin : Nat) (s : KokkosState) (hnm : 0 < nm)
    (hfresh : mapFind s.profileMap s.uniqueId = none) :
    (let r := kokkosp_begin_parallel_for nm name devid kin s
     mapFind r.1.profileMap r.2.1
       = some ⟨"kokkos" ++ "/" ++ ("dev" ++ toString devid) ++ "/" ++ name,
               true⟩)
    ∧ (let r := kokkosp_begin_parallel_reduce nm name devid kin s
       mapFind r.1.profileMap r.2.1
         = some ⟨"kokkos" ++ "/" ++ ("dev" ++ toString devid) ++ "/" ++ name,
                 true⟩)
    ∧ (let r := kokkosp_begin_parallel_scan nm name devid kin s
       mapFind r.1.profileMap r.2.1
         = some ⟨"kokkos" ++ "/" ++ ("dev" ++ toString devid) ++ "/" ++ name,
                 true⟩) := by
  refine ⟨?_, ?_, ?_⟩ <;>
    simp only [begin_parallel_for_eq nm name devid kin s hnm hfresh,
               begin_parallel_reduce_eq nm name devid kin s hnm hfresh,
               begin_parallel_scan_eq nm name devid kin s hnm hfresh] <;>
    simp [mapFind]

/-- Witness for `c8_begin_region_qualified_name` at `nm = 1`,
`name = "saxpy"`, `devid = 2`, the initial state; the qualified name
evaluates to the literal `kokkos/dev2/saxpy`. -/
theorem c8_begin_region_qualified_name_witness :
    0 < 1
    ∧ mapFind initKokkosState.profileMap initKokkosState.uniqueId = none
    ∧ ("kokkos" ++ "/" ++ ("dev" ++ toString (2 : Nat)) ++ "/" ++ "saxpy")
        = "kokkos/dev2/saxpy"
    ∧ ((let r := kokkosp_begin_parallel_for 1 "saxpy" 2 0 initKokkosState
        mapFind r.1.profileMap r.2.1
          = some ⟨"kokkos" ++ "/" ++ ("dev" ++ toString (2 : Nat)) ++ "/" ++ "saxpy",
                  true⟩)
       ∧ (let r := kokkosp_begin_parallel_reduce 1 "saxpy" 2 0 initKokkosState
          mapFind r.1.profileMap r.2.1
            = some ⟨"kokkos" ++ "/" ++ ("dev" ++ toString (2 : Nat)) ++ "/" ++ "saxpy",
                    true⟩)
       ∧ (let r := kokkosp_begin_parallel_scan 1 "saxpy" 2 0 initKokkosState
          mapFind r.1.profileMap r.2.1
            = some ⟨"kokkos" ++ "/" ++ ("dev" ++ toString (2 : Nat)) ++ "/" ++ "saxpy",
                    true⟩)) :=
  ⟨by decide, rfl, by decide,
   c8_begin_region_qualified_name 1 "saxpy" 2 0 initKokkosState (by decide) rfl⟩

lemma push_region_state (nm : Nat) (n : String) (s : KokkosState)
    (hnm : 0 < nm) :
    (kokkosp_push_profile_region nm n s).1
      = { s with profileStack := ⟨n, true⟩ :: s.profileStack } := by
  simp [kokkosp_push_profile_region, hnm]

lemma pop_region_state_cons (nm : Nat) (s : KokkosState) (e : ProfileEntry)
    (rest : List ProfileEntry) (hnm : 0 < nm) (hstk : s.profileStack = e :: rest) :
    kokkosp_pop_profile_region nm s
      = ({ s with profileStack := rest }, [BundleEvent.stop e.pname]) := by
  simp [kokkosp_pop_profile_region, hnm, hstk]

lemma pop_region_state_nil (nm : Nat) (s : KokkosState)
    (hstk : s.profileStack = []) :
    kokkosp_pop_profile_region nm s = (s, []) := by
  rcases Nat.eq_zero_or_pos nm with h0 | h0 <;>
    simp [kokkosp_pop_profile_region, h0, hstk]

lemma runStack_depth (nm : Nat) (hnm : 0 < nm) :
    ∀ (l : List StackOp) (s : KokkosState),
      noPopOnEmpty s.profileStack.length l = true →
      (runStack nm l s).profileStack.length + numPops l
        = s.profileStack.length + numPushes l := by
  intro l
  induction l with
  | nil =>
    intro s _
    simp [runStack, numPops, numPushes]
  | cons op l ih =>
    intro s h
    cases op with
    | push n =>
      have h' : noPopOnEmpty
          ((kokkosp_push_profile_region nm n s).1).profileStack.length l
          = true := by
        rw [push_region_state nm n s hnm]
        simpa [noPopOnEmpty] using h
      have hrec := ih (kokkosp_push_profile_region nm n s).1 h'
      rw [push_region_state nm n s hnm] at hrec
      simp only [runStack, numPops, numPushes]
      rw [ih _ h']
      rw [push_region_state nm n s hnm]
      simp only [List.length_cons]
      omega
    | pop =>
      have hd : 0 < s.profileStack.length
          ∧ noPopOnEmpty (s.profileStack.length - 1) l = true := by
        simpa [noPopOnEmpty] using h
      cases hstk : s.profileStack with
      | nil =>
        rw [hstk] at hd
        simp at hd
      | cons e rest =>
        have hpop := pop_region_state_cons nm s e rest hnm hstk
        have h' : noPopOnEmpty
            (({ s with profileStack := rest } : KokkosState)).profileStack.length l
            = true := by
          have := hd.2
          rw [hstk] at this
          simpa using this
        have hrec := ih ({ s with profileStack := rest }) h'
        have hB : (({ s with profileStack := rest } : KokkosState)).profileStack.length
            = rest.length := rfl
        rw [hB] at hrec
        simp only [runStack, numPops, numPushes, hpop, hstk, List.length_cons]
        omega

/-- Claim C7 (counterexample): the sequence `[pop, push "a"]` has one push
and one pop (so M ≤ N), yet the final stack depth is 1, not N − M = 0 —
the no-op pop on the empty stack breaks the unconditional depth formula. -/
theorem c7_stack_depth_counterexample :
    numPops [StackOp.pop, StackOp.push "a"]
        ≤ numPushes [StackOp.pop, StackOp.push "a"]
    ∧ (runStack 1 [StackOp.pop, StackOp.push "a"]
          initKokkosState).profileStack.length
        ≠ numPushes [StackOp.pop, StackOp.push "a"]
            - numPops [StackOp.pop, StackOp.push "a"] := by
  decide

/-- Claim C7 (amended): for any push/pop sequence in which no pop is issued
while the stack is empty, the depth after N pushes and M pops equals
N − M (and M ≤ N); each pop stops and removes exactly the most recently
pushed element, and a pop on an empty stack is a no-op. -/
theorem c7_stack_discipline_amended (nm : Nat) (l : List StackOp)
    (s t : KokkosState) (e : ProfileEntry) (rest : List ProfileEntry)
    (hnm : 0 < nm) (hs : s.profileStack = [])
    (hbal : noPopOnEmpty 0 l = true) :
    (runStack nm l s).profileStack.length = numPushes l - numPops l
    ∧ numPops l ≤ numPushes l
    ∧ (t.profileStack = e :: rest →
        kokkosp_pop_profile_region nm t
          = ({ t with profileStack := rest }, [BundleEvent.stop e.pname]))
    ∧ (t.profileStack = [] → kokkosp_pop_profile_region nm t = (t, [])) := by
  have hb : noPopOnEmpty s.profileStack.length l = true := by
    rw [hs]
    exact hbal
  have hd := runStack_depth nm hnm l s hb
  rw [hs] at hd
  simp only [List.length_nil] at hd
  refine ⟨by omega, by omega, ?_, ?_⟩
  · intro ht
    exact pop_region_state_cons nm t e rest hnm ht
  · intro ht
    exact pop_region_state_nil nm t ht

/-- Witness for `c7_stack_discipline_amended` at `nm = 1`,
`l = [push "a", push "b", pop]`, the initial state, and a state whose
stack holds the single entry `⟨"x", true⟩`. -/
theorem c7_stack_discipline_amended_witness :
    0 < 1
    ∧ initKokkosState.profileStack = []
    ∧ noPopOnEmpty 0 [StackOp.push "a", StackOp.push "b", StackOp.pop] = true
    ∧ ((runStack 1 [StackOp.push "a", StackOp.push "b", StackOp.pop]
          initKokkosState).profileStack.length
        = numPushes [StackOp.push "a", StackOp.push "b", StackOp.pop]
            - numPops [StackOp.push "a", StackOp.push "b", StackOp.pop]
       ∧ numPops [StackOp.push "a", StackOp.push "b", StackOp.pop]
           ≤ numPushes [StackOp.push "a", StackOp.push "b", StackOp.pop]
       ∧ ((⟨5, [], [], [⟨"x", true⟩]⟩ : KokkosState).profileStack
             = ⟨"x", true⟩ :: ([] : List ProfileEntry) →
           kokkosp_pop_profile_region 1 ⟨5, [], [], [⟨"x", true⟩]⟩
             = (({ (⟨5, [], [], [⟨"x", true⟩]⟩ : KokkosState) with
                    profileStack := ([] : List ProfileEntry) }),
                [BundleEvent.stop (ProfileEntry.mk "x" true).pname]))
       ∧ ((⟨5, [], [], [⟨"x", true⟩]⟩ : KokkosState).profileStack = [] →
           kokkosp_pop_profile_region 1 ⟨5, [], [], [⟨"x", true⟩]⟩
             = (⟨5, [], [], [⟨"x", true⟩]⟩, []))) :=
  ⟨by decide, rfl, by decide,
   c7_stack_discipline_amended 1 [StackOp.push "a", StackOp.push "b", StackOp.pop]
     initKokkosState ⟨5, [], [], [⟨"x", true⟩]⟩ ⟨"x", true⟩ []
     (by decide) rfl (by decide)⟩
